import Mathlib

/-!
Verification of the RAG agent core in `src/new_app.py`.

The file shallowly embeds the program's data model and operations:

* the langchain message types threaded through the loop (`Message`,
  `ToolCall`),
* the langgraph state machine built in `RAGAgent.setup_agent`
  (`call_llm`, `should_continue`, `take_action`, `runSteps`, `invoke`),
* the public entry point `RAGAgent.ask_question`,
* the retrieval tool `RAGAgent.retriever_tool`, and
* the text chunker `RecursiveCharacterTextSplitter(chunk_size=1000,
  chunk_overlap=200)` configured in `RAGAgent.__init__`.

External services (the chat model and the vector-store retriever) are
parameters: the chat model is a function from the message list to an
assistant reply (or a raised exception, modelled with `Except`), and the
retriever is a function from a query to a ranked document list.

Python exceptions are modelled with `Except PyErr`; a function that cannot
raise is total.
-/

/-- Python exceptions that the embedded code can raise. -/
inductive PyErr where
  /-- `IndexError`, e.g. `state['messages'][-1]` on an empty list. -/
  | indexError : PyErr
  /-- `AttributeError`, e.g. `.tool_calls` on a message that lacks it. -/
  | attributeError : PyErr
  /-- The `pydantic` validation error (or `TypeError`, depending on the
  langchain_core version) raised when the `@tool`-wrapped unbound instance
  method registered in `tools_dict` is invoked: `self` is never bound, so
  the call fails before the tool body runs. -/
  | toolInvocationError : PyErr
  /-- `langgraph.errors.GraphRecursionError`: the compiled graph raises it
  when the run exceeds the configured `recursion_limit`. -/
  | graphRecursionError : PyErr
  /-- A failure raised by an external service call (the chat model). -/
  | serviceError (msg : String) : PyErr
deriving DecidableEq

/-- One tool-call request carried by an assistant message: a tool name, an
argument mapping (string keys to string values, as produced for the single
`query: str` argument of the registered tool) and a call identifier. -/
structure ToolCall where
  name : String
  args : List (String × String)
  id : String
deriving DecidableEq

/-- The langchain message types used by `src/new_app.py`:
`SystemMessage`, `HumanMessage`, the assistant's `AIMessage` (which is the
only type carrying a `tool_calls` attribute) and `ToolMessage`
(`tool_call_id`, `name`, `content`). -/
inductive Message where
  | system (content : String)
  | human (content : String)
  | ai (content : String) (tool_calls : List ToolCall)
  | tool (tool_call_id : String) (name : String) (content : String)
deriving DecidableEq

/-- `.content` is available on every langchain message type. -/
def Message.content : Message → String
  | .system c => c
  | .human c => c
  | .ai c _ => c
  | .tool _ _ c => c

/-- Python attribute access `m.tool_calls`: only `AIMessage` has the
attribute (`some`), every other message type lacks it (`none`, i.e.
accessing it would raise `AttributeError`). -/
def Message.getToolCallsAttr : Message → Option (List ToolCall)
  | .ai _ tcs => some tcs
  | _ => none

/-- `AgentState` from `setup_agent`: a `TypedDict` with the single key
`messages : Sequence[BaseMessage]`.  Note that the annotation carries **no
reducer** (no `Annotated[..., add_messages]`). -/
structure AgentState where
  messages : List Message
deriving DecidableEq

/-- The chat model `self.llm.invoke`: given the message list it either
returns one new `AIMessage` (content and tool-call requests) or raises. -/
def LLM : Type := List Message → Except PyErr (String × List ToolCall)

/-- A retrieved document: langchain `Document` with its `page_content`. -/
structure Doc where
  page_content : String
deriving DecidableEq

/-- The vector-store retriever `self.retriever.get_relevant_documents`:
query text in, ranked document list out. -/
def Retriever : Type := String → List Doc

/-- Sentinel returned by `retriever_tool` when retrieval finds nothing. -/
def no_info_msg : String := "No relevant information found in the research paper."

/-- `RAGAgent.retriever_tool` (src/new_app.py lines 63-71): retrieve, and
either return the sentinel for an empty result list or join the documents,
each prefixed with `Document i:` for the 1-based rank `i`.  The function
itself never raises: every branch returns a string. -/
def retriever_tool (retr : Retriever) (query : String) : String :=
  let docs := retr query
  if docs.isEmpty then no_info_msg
  else String.intercalate "\n\n"
    (docs.enum.map (fun p => "Document " ++ toString (p.1 + 1) ++ ":\n" ++ p.2.page_content))

/-- Association-list read, mirroring Python `dict` lookup (`d[k]`,
`d.get(k)`, `k in d`). -/
def dictGet (k : String) : List (String × α) → Option α
  | [] => none
  | (k', v) :: rest => if k' = k then some v else dictGet k rest

/-- The registered tool object stored in `tools_dict`: `@tool` at
class-body time wraps the **unbound** instance method
`retriever_tool(self, query)` into a `StructuredTool`, and
`self.retriever_tool` returns that same class attribute with `self` never
bound (langchain tools are not descriptors).  Invoking it with a query
string therefore raises on every call — either the inferred argument
schema retains `self` and pydantic validation fails for the missing
`query`, or `self` is filtered and the underlying function is called with
the string bound to `self`, raising `TypeError` — before the
`retriever_tool` body above ever runs. -/
def registered_tool_invoke (_retr : Retriever) (_query : String) : Except PyErr String :=
  Except.error PyErr.toolInvocationError

/-- `self.tools_dict = {t.name: t for t in tools}` with
`tools = [self.retriever_tool]`: the single registered tool object, keyed
by its name `"retriever_tool"`; its `.invoke` is
`registered_tool_invoke`. -/
def tools_dict (retr : Retriever) : List (String × (String → Except PyErr String)) :=
  [("retriever_tool", registered_tool_invoke retr)]

/-- Corrective text produced for an unknown tool name in `take_action`. -/
def incorrect_tool_msg : String := "Incorrect Tool Name, please use the available tool."

/-- The body of the `for t in tool_calls` loop in `take_action`: an
unknown name produces the fixed corrective message; a registered name is
invoked with `t['args'].get('query', '')` and any exception of that
invocation propagates.  A completed iteration appends one `ToolMessage`
carrying the originating call id and tool name. -/
def run_tool_call (retr : Retriever) (t : ToolCall) : Except PyErr Message :=
  match dictGet t.name (tools_dict retr) with
  | none => Except.ok (Message.tool t.id t.name incorrect_tool_msg)
  | some invokeTool =>
    match invokeTool ((dictGet "query" t.args).getD "") with
    | Except.error e => Except.error e
    | Except.ok result => Except.ok (Message.tool t.id t.name result)

/-- The `for t in tool_calls` loop of `take_action`: process the requests
in order, collecting one result message per completed iteration; the first
raised exception aborts the loop and propagates. -/
def runToolCalls (retr : Retriever) : List ToolCall → Except PyErr (List Message)
  | [] => Except.ok []
  | t :: ts =>
    match run_tool_call retr t with
    | Except.error e => Except.error e
    | Except.ok msg =>
      match runToolCalls retr ts with
      | Except.error e => Except.error e
      | Except.ok msgs => Except.ok (msg :: msgs)

/-- `take_action` (src/new_app.py lines 98-107): read
`state['messages'][-1].tool_calls` (this access is unguarded, so a missing
attribute raises) and run the request loop.  On success the node returns
the state update `{'messages': results}`; an exception inside the loop
propagates out of the node. -/
def take_action (retr : Retriever) (state : AgentState) : Except PyErr (List Message) :=
  match state.messages.getLast? with
  | none => Except.error PyErr.indexError
  | some m =>
    match m.getToolCallsAttr with
    | none => Except.error PyErr.attributeError
    | some tcs => runToolCalls retr tcs

/-- The `system_prompt` string literal from `setup_agent`. -/
def system_prompt : String :=
  "\n        You are an intelligent AI assistant who answers questions about indivisible fair division and related topics.\n        Use the retriever tool to look up information from the research paper.\n        Always cite specific parts of the document in your answers.\n        "

/-- The message list `call_llm` hands to the chat model:
`[SystemMessage(content=system_prompt)] + list(state['messages'])`. -/
def llm_input (state : AgentState) : List Message :=
  Message.system system_prompt :: state.messages

/-- `call_llm` (src/new_app.py lines 92-95): prepend the system prompt,
invoke the chat model, and return the state update `{'messages': [message]}`
wrapping the single new assistant message. -/
def call_llm (llm : LLM) (state : AgentState) : Except PyErr (List Message) :=
  match llm (llm_input state) with
  | Except.error e => Except.error e
  | Except.ok (content, tcs) => Except.ok [Message.ai content tcs]

/-- `should_continue` (src/new_app.py lines 81-83):
`hasattr(last_message, 'tool_calls') and len(last_message.tool_calls) > 0`.
The attribute access is guarded by `hasattr` via `and` short-circuiting, so
the only exception this can raise is the `IndexError` of `[-1]` on an empty
message list. -/
def should_continue (state : AgentState) : Except PyErr Bool :=
  match state.messages.getLast? with
  | none => Except.error PyErr.indexError
  | some m =>
    match m.getToolCallsAttr with
    | none => Except.ok false
    | some tcs => Except.ok (decide (tcs.length > 0))

/-- How langgraph applies a node's `{'messages': update}` to the state:
`AgentState.messages` is annotated `Sequence[BaseMessage]` with no reducer,
so langgraph assigns the key a `LastValue` channel and each update
**replaces** the previous value (with an `add_messages` reducer it would
append; none is configured here). -/
def applyUpdate (_state : AgentState) (update : List Message) : AgentState :=
  { messages := update }

/-- The two nodes of the compiled graph: `"llm"` (entry point) and
`"retriever_agent"`. -/
inductive Node where
  | llm : Node
  | retriever_agent : Node
deriving DecidableEq

/-- One Pregel superstep per recursive call: run the current node, apply
its update, and follow the graph's edges
(`add_conditional_edges("llm", should_continue, {True: "retriever_agent", False: END})`
and `add_edge("retriever_agent", "llm")`).  When the fuel — the
`recursion_limit` — is exhausted before reaching `END`, langgraph raises
`GraphRecursionError`. -/
def runSteps (llm : LLM) (retr : Retriever) : Nat → Node → AgentState → Except PyErr AgentState
  | 0, _, _ => Except.error PyErr.graphRecursionError
  | fuel + 1, Node.llm, state =>
    match call_llm llm state with
    | Except.error e => Except.error e
    | Except.ok update =>
      match should_continue (applyUpdate state update) with
      | Except.error e => Except.error e
      | Except.ok true => runSteps llm retr fuel Node.retriever_agent (applyUpdate state update)
      | Except.ok false => Except.ok (applyUpdate state update)
  | fuel + 1, Node.retriever_agent, state =>
    match take_action retr state with
    | Except.error e => Except.error e
    | Except.ok update => runSteps llm retr fuel Node.llm (applyUpdate state update)

/-- langgraph's default `recursion_limit`: `ask_question` calls
`self.rag_agent.invoke({...})` with no config, so the default of 25
supersteps applies. -/
def recursion_limit : Nat := 25

/-- The input state built in `ask_question`:
`messages = [HumanMessage(content=question)]`. -/
def initial_messages (question : String) : List Message :=
  [Message.human question]

/-- `self.rag_agent.invoke(input)`: run the graph from the entry point
`"llm"` under the default recursion limit. -/
def invoke (llm : LLM) (retr : Retriever) (input : AgentState) : Except PyErr AgentState :=
  runSteps llm retr recursion_limit Node.llm input

/-- The user-facing fallback answer of the `except` branch in
`ask_question`. -/
def error_fallback : String :=
  "I'm sorry, I encountered an error while processing your question. Please try again."

/-- `RAGAgent.ask_question` (src/new_app.py lines 118-126): run the graph
on `[HumanMessage(question)]` and return `result['messages'][-1].content`;
any exception raised on the way (from the chat model, the graph, or the
final `[-1]` indexing) is caught and converted to `error_fallback`. -/
def ask_question (llm : LLM) (retr : Retriever) (question : String) : String :=
  match invoke llm retr { messages := initial_messages question } with
  | Except.error _ => error_fallback
  | Except.ok result =>
    match result.messages.getLast? with
    | none => error_fallback
    | some m => m.content

/-!
## Chunking pipeline

`RAGAgent.__init__` configures
`RecursiveCharacterTextSplitter(chunk_size=1000, chunk_overlap=200)` and
applies `split_documents` to the loaded pages.  The splitter (langchain's
`RecursiveCharacterTextSplitter` with its defaults: separator hierarchy
`["\n\n", "\n", " ", ""]`, `keep_separator=True`, `length_function=len`,
`strip_whitespace=True`) is embedded below over character lists.  The
recursion of `_split_text` always descends to a strict suffix of the
separator hierarchy, so the four levels are written out one by one
(`split_text` for `["\n\n", "\n", " ", ""]` down to `splitTextL3` for
`[""]`); when the first separator of a level does not occur in the text,
`_split_text` behaves exactly as with the remaining separators, which is
the next level's function.
-/

/-- Text as a character list (Python `str` for the chunking pipeline). -/
abbrev Text := List Char

/-- `chunk_size=1000` from `RAGAgent.__init__` (src/new_app.py line 37). -/
def chunk_size : Nat := 1000

/-- `chunk_overlap=200` from `RAGAgent.__init__` (src/new_app.py line 37). -/
def chunk_overlap : Nat := 200

/-- Python `text.split(sep)` for a non-empty `sep` (which is also
`re.split` on the escaped separator, keeping only the non-captured
pieces): scan left to right, cut at each non-overlapping occurrence.  The
fuel is the remaining text length plus one; every step either drops the
separator (length ≥ 1) or one character, so the fuel never runs out when
started at `text.length + 1`. -/
def splitOnAux (sep : Text) : Nat → Text → Text → List Text
  | 0, text, acc => [acc.reverse ++ text]
  | _ + 1, [], acc => [acc.reverse]
  | fuel + 1, c :: rest, acc =>
    if sep.isPrefixOf (c :: rest) then
      acc.reverse :: splitOnAux sep fuel ((c :: rest).drop sep.length) []
    else
      splitOnAux sep fuel rest (c :: acc)

/-- Python `text.split(sep)`; for the empty separator (never used by the
callers below) the text is returned whole. -/
def pySplit (sep text : Text) : List Text :=
  if sep = [] then [text] else splitOnAux sep (text.length + 1) text []

/-- `re.search(re.escape(sep), text)` for a non-empty literal separator:
the separator occurs somewhere in the text. -/
def occursIn (sep text : Text) : Bool :=
  decide (1 < (pySplit sep text).length)

/-- `_split_text_with_regex(text, separator, keep_separator=True)`: split
on the separator, re-attach each separator occurrence to the front of the
following piece; for the empty separator the result is `list(text)`. -/
def splitWithSep (text sep : Text) : List Text :=
  if sep = [] then text.map (fun c => [c])
  else
    match pySplit sep text with
    | [] => []
    | p :: ps => p :: ps.map (fun q => sep ++ q)

/-- The final line of `_split_text_with_regex`: drop empty pieces. -/
def splitTextWithSep (text sep : Text) : List Text :=
  (splitWithSep text sep).filter (fun s => !s.isEmpty)

/-- The whitespace characters relevant to Python `str.strip()` for the
ASCII inputs handled here. -/
def isPyWhitespace (c : Char) : Bool :=
  c == ' ' || c == '\n' || c == '\t' || c == '\r'

/-- Python `str.strip()`: remove leading and trailing whitespace. -/
def pyStrip (t : Text) : Text :=
  ((t.dropWhile isPyWhitespace).reverse.dropWhile isPyWhitespace).reverse

/-- `_join_docs(docs, separator)` with the in-effect empty join separator
(`keep_separator=True`) and the default `strip_whitespace=True`: join,
strip, and drop the chunk when nothing remains. -/
def joinDocs (cur : List Text) : Option Text :=
  let text := pyStrip cur.flatten
  if text = [] then none else some text

/-- The `while` loop inside `_merge_splits` that shrinks the carried-over
window from the front until its total length is at most `chunk_overlap`
(and the next split fits): `lend` is the length of the split about to be
added.  The join separator is empty, so its length terms vanish.  (The
Python loop can only run while `current_doc` is non-empty, since the
condition forces `total > 0` there; the `[]` case is that unreachable
exit.) -/
def popWhile (lend : Nat) : List Text → Nat → List Text × Nat
  | [], total => ([], total)
  | c :: rest, total =>
    if chunk_overlap < total ∨ (chunk_size < total + lend ∧ 0 < total) then
      popWhile lend rest (total - c.length)
    else (c :: rest, total)

/-- The `for d in splits` loop of `_merge_splits` (join separator empty):
`docs` is the emitted chunk list, `cur`/`total` the current window and its
total length.  When the next split would overflow `chunk_size`, the
current window is emitted (via `joinDocs`) and shrunk from the front
(`popWhile`); then the split is appended to the window. -/
def mergeAux : List Text → List Text → Nat → List Text → List Text
  | docs, cur, _, [] =>
    (match joinDocs cur with
     | none => docs
     | some doc => docs ++ [doc])
  | docs, cur, total, d :: rest =>
    if chunk_size < total + d.length then
      match cur with
      | [] => mergeAux docs [d] (total + d.length) rest
      | _ :: _ =>
        let docs' :=
          match joinDocs cur with
          | none => docs
          | some doc => docs ++ [doc]
        let pair := popWhile d.length cur total
        mergeAux docs' (pair.1 ++ [d]) (pair.2 + d.length) rest
    else mergeAux docs (cur ++ [d]) (total + d.length) rest

/-- `_merge_splits(splits, separator)` with the empty join separator. -/
def mergeSplits (splits : List Text) : List Text :=
  mergeAux [] [] 0 splits

/-- The shape of the `for s in splits` loop in `_split_text`: maximal runs
of "good" splits (length `< chunk_size`), which get merged, alternate with
individual oversized splits, which are recursed into (or appended as-is
when no separators remain). -/
inductive Seg where
  | run (gs : List Text) : Seg
  | big (s : Text) : Seg

/-- Partition the splits into maximal good runs and oversized splits, in
order, following the flush points of the `_split_text` loop. -/
def segmentSplits : List Text → List Seg
  | [] => []
  | s :: rest =>
    if s.length < chunk_size then
      match segmentSplits rest with
      | Seg.run gs :: segs => Seg.run (s :: gs) :: segs
      | segs => Seg.run [s] :: segs
    else Seg.big s :: segmentSplits rest

/-- Process the segments when `new_separators` is empty: good runs are
merged, oversized splits are appended unchanged
(`final_chunks.append(s)`). -/
def segsNoRec : List Seg → List Text
  | [] => []
  | Seg.run gs :: segs => mergeSplits gs ++ segsNoRec segs
  | Seg.big s :: segs => s :: segsNoRec segs

/-- Process the segments when `new_separators` is non-empty: good runs are
merged, oversized splits are split further by the next level
(`final_chunks.extend(self._split_text(s, new_separators))`). -/
def segsWith (recurse : Text → List Text) : List Seg → List Text
  | [] => []
  | Seg.run gs :: segs => mergeSplits gs ++ segsWith recurse segs
  | Seg.big s :: segs => recurse s ++ segsWith recurse segs

/-- `_split_text(text, [""])`: the empty separator is chosen immediately
(`new_separators` empty), the splits are the single characters. -/
def splitTextL3 (text : Text) : List Text :=
  segsNoRec (segmentSplits (splitTextWithSep text []))

/-- `_split_text(text, [" ", ""])`: split on `" "` when it occurs
(descending into `[""]` for oversized splits), otherwise fall through to
the `[""]` level. -/
def splitTextL2 (text : Text) : List Text :=
  if occursIn [' '] text then
    segsWith splitTextL3 (segmentSplits (splitTextWithSep text [' ']))
  else splitTextL3 text

/-- `_split_text(text, ["\n", " ", ""])`. -/
def splitTextL1 (text : Text) : List Text :=
  if occursIn ['\n'] text then
    segsWith splitTextL2 (segmentSplits (splitTextWithSep text ['\n']))
  else splitTextL2 text

/-- `split_text(text)` of the configured splitter:
`_split_text(text, ["\n\n", "\n", " ", ""])`. -/
def split_text (text : Text) : List Text :=
  if occursIn ['\n', '\n'] text then
    segsWith splitTextL1 (segmentSplits (splitTextWithSep text ['\n', '\n']))
  else splitTextL1 text

/-- `text_splitter.split_documents(pages)` at the text level: split every
page and concatenate the chunks in page order. -/
def split_documents (pages : List Text) : List Text :=
  (pages.map split_text).flatten

/-!
## Specification-side definitions and concrete fixtures

`labeledDocs` restates the spec's "1-based ordinal label" wording
independently of the implementation's `enumerate`; the remaining
definitions are concrete chat models, retrievers and states used to
instantiate the theorems below.
-/

/-- The spec's labelling of retrieved chunks: the `n`-th document (1-based,
in retrieval-rank order) is prefixed with its ordinal label. -/
def labeledDocs (n : Nat) : List Doc → List String
  | [] => []
  | d :: ds => ("Document " ++ toString n ++ ":\n" ++ d.page_content) :: labeledDocs (n + 1) ds

/-- A chat model that answers directly, with no tool calls. -/
def llmNoTool : LLM := fun _ => Except.ok ("The paper studies EF1 allocations.", [])

/-- A chat model that requests the retrieval tool on every invocation. -/
def llmAlwaysTool : LLM :=
  fun _ => Except.ok ("searching", [{ name := "retriever_tool", args := [], id := "call_1" }])

/-- A chat model that returns a fixed final answer, with no tool calls. -/
def llmDirectAnswer : LLM :=
  fun _ => Except.ok ("The main contribution is an EF1 algorithm.", [])

/-- A retriever that finds nothing. -/
def emptyRetriever : Retriever := fun _ => []

/-- A retriever returning one fixed document. -/
def docRetrieverA : Retriever := fun _ => [{ page_content := "alpha" }]

/-- A retriever returning two fixed documents. -/
def docRetrieverB : Retriever := fun _ => [{ page_content := "beta" }, { page_content := "gamma" }]

/-- Tool-call requests mixing a registered name (with a `query` argument)
and an unknown name. -/
def tcsC4 : List ToolCall :=
  [{ name := "retriever_tool", args := [("query", "EF1")], id := "call_1" },
   { name := "web_search", args := [], id := "call_2" }]

/-- A state whose last message is an assistant message carrying `tcsC4`. -/
def stC4 : AgentState := { messages := [Message.ai "using tools" tcsC4] }

/-- Two requests for the registered tool, one without a `query` argument. -/
def tcsC5 : List ToolCall :=
  [{ name := "retriever_tool", args := [], id := "id_a" },
   { name := "retriever_tool", args := [("query", "fair division")], id := "id_b" }]

/-- A state ending in an assistant message carrying `tcsC5`. -/
def stC5 : AgentState :=
  { messages := [Message.human "q", Message.ai "acting" tcsC5] }

/-- A state whose last message requests only an unknown tool name. -/
def stUnknownOnly : AgentState :=
  { messages := [Message.ai "using tools"
      [{ name := "web_search", args := [], id := "call_2" }]] }

/-- Two requests with unknown tool names. -/
def tcsAllUnknown : List ToolCall :=
  [{ name := "search_web", args := [], id := "u1" },
   { name := "calculator", args := [("query", "2+2")], id := "u2" }]

/-- A state ending in an assistant message carrying `tcsAllUnknown`. -/
def stAllUnknown : AgentState :=
  { messages := [Message.ai "acting" tcsAllUnknown] }

/-- A state whose last message is a tool-result message (no `tool_calls`
attribute). -/
def stC10 : AgentState :=
  { messages := [Message.tool "call_9" "retriever_tool" "Document 1:\nalpha"] }

/-- A 600-character paragraph of `a`s. -/
def paraA : Text := List.replicate 600 'a'

/-- A 600-character paragraph of `b`s. -/
def paraB : Text := List.replicate 600 'b'

/-- A sample page: two 600-character paragraphs separated by a blank
line. -/
def samplePage : Text := paraA ++ ('\n' :: '\n' :: paraB)

/-!
## Theorems
-/

/-- Claim C1: for every chat model, retriever and question, `ask_question`
returns a text answer and never propagates an exception: either the run
succeeds and the answer is the text content of the final state's last
message, or — on any internal failure (chat-model error, recursion-limit
abort, empty final message list) — the fixed user-facing fallback string is
returned.  In particular, whenever the graph run raises, the result is
exactly `error_fallback`. -/
theorem ask_question_total_contract (llm : LLM) (retr : Retriever) (q : String) :
    (∃ st m, invoke llm retr { messages := initial_messages q } = Except.ok st ∧
        st.messages.getLast? = some m ∧ ask_question llm retr q = m.content) ∨
    ask_question llm retr q = error_fallback := by
  unfold ask_question
  split
  · exact Or.inr rfl
  · next result heq =>
    split
    · exact Or.inr rfl
    · next m hm => exact Or.inl ⟨result, m, heq, hm, rfl⟩

/-- Claim C2 (evidence of the code bug): the `messages` key of
`AgentState` has no reducer annotation, so the reasoning node's update
`{'messages': [message]}` **replaces** the conversation state instead of
appending to it: after the reasoning step on the seeded state, the state
consists of the new assistant message alone and the user's question is
gone. -/
theorem reasoning_step_replaces_state :
    call_llm llmNoTool { messages := [Message.human "What is EF1?"] }
      = Except.ok [Message.ai "The paper studies EF1 allocations." []] ∧
    applyUpdate { messages := [Message.human "What is EF1?"] }
        [Message.ai "The paper studies EF1 allocations." []]
      = { messages := [Message.ai "The paper studies EF1 allocations." []] } ∧
    Message.human "What is EF1?" ∉
      (applyUpdate { messages := [Message.human "What is EF1?"] }
        [Message.ai "The paper studies EF1 allocations." []]).messages := by
  refine ⟨rfl, rfl, ?_⟩
  decide

/-- Claim C7: the message list handed to the chat model on the first
reasoning step of a question consists of exactly the fixed system
instruction followed by the user's question, with no assistant or
tool-result message. -/
theorem entry_conversation_shape (q : String) :
    llm_input { messages := initial_messages q }
      = [Message.system system_prompt, Message.human q] := rfl

/-- Claim C10: `should_continue` never raises on a state with a last
message (the `tool_calls` access is guarded by `hasattr`): it returns a
boolean, and returns `false` whenever the last message lacks the
`tool_calls` attribute or carries an empty `tool_calls` list. -/
theorem should_continue_no_attr_false (st : AgentState) (m : Message)
    (h : st.messages.getLast? = some m)
    (hm : m.getToolCallsAttr = none ∨ m.getToolCallsAttr = some []) :
    (∃ b, should_continue st = Except.ok b) ∧ should_continue st = Except.ok false := by
  have key : should_continue st = Except.ok false := by
    unfold should_continue
    split
    · next heq => rw [h] at heq; exact absurd heq (by simp)
    · next m' heq =>
      rw [h] at heq
      injection heq with e
      subst e
      cases hm with
      | inl hn => rw [hn]
      | inr hs => rw [hs]; rfl
  exact ⟨⟨false, key⟩, key⟩

/-- Witness for C10: a state ending in a tool-result message routes to the
terminal state without raising. -/
theorem should_continue_no_attr_false_witness :
    (∃ b, should_continue stC10 = Except.ok b) ∧ should_continue stC10 = Except.ok false :=
  should_continue_no_attr_false stC10 (Message.tool "call_9" "retriever_tool" "Document 1:\nalpha")
    rfl (Or.inl rfl)

/-- Under a chat model that requests at least one tool call on every
invocation, every run of the step function aborts with an error (the
recursion-limit abort, or an earlier exception), for every fuel, node and
state. -/
theorem runSteps_always_tool (llm : LLM) (retr : Retriever)
    (halways : ∀ msgs, ∃ c t tcs, llm msgs = Except.ok (c, t :: tcs)) :
    ∀ fuel node st, ∃ e, runSteps llm retr fuel node st = Except.error e := by
  intro fuel
  induction fuel with
  | zero => exact fun node st => ⟨PyErr.graphRecursionError, rfl⟩
  | succ n ih =>
    intro node st
    cases node with
    | llm =>
      obtain ⟨c, t, tcs, hl⟩ := halways (llm_input st)
      have hc : call_llm llm st = Except.ok [Message.ai c (t :: tcs)] := by
        unfold call_llm; rw [hl]
      have hsc : should_continue (applyUpdate st [Message.ai c (t :: tcs)]) = Except.ok true := by
        simp [should_continue, applyUpdate, Message.getToolCallsAttr]
      obtain ⟨e, he⟩ := ih Node.retriever_agent (applyUpdate st [Message.ai c (t :: tcs)])
      refine ⟨e, ?_⟩
      unfold runSteps
      split
      · next e' heq => rw [hc] at heq; exact absurd heq (by simp)
      · next update heq =>
        rw [hc] at heq
        injection heq with hu
        subst hu
        split
        · next e' heq2 => rw [hsc] at heq2; exact absurd heq2 (by simp)
        · exact he
        · next heq2 => rw [hsc] at heq2; exact absurd heq2 (by simp)
    | retriever_agent =>
      cases ha : take_action retr st with
      | error e' => exact ⟨e', by unfold runSteps; rw [ha]⟩
      | ok update =>
        obtain ⟨e, he⟩ := ih Node.llm (applyUpdate st update)
        exact ⟨e, by unfold runSteps; rw [ha]; exact he⟩

/-- Claim C3: for a chat model that requests a tool call on every
invocation, the orchestration loop still halts: the graph run aborts
within the configured turn budget (`recursion_limit`) and `ask_question`
returns the fallback text — the loop never runs unboundedly. -/
theorem loop_halts_on_tool_looping_llm (llm : LLM) (retr : Retriever) (q : String)
    (halways : ∀ msgs, ∃ c t tcs, llm msgs = Except.ok (c, t :: tcs)) :
    (∃ e, invoke llm retr { messages := initial_messages q } = Except.error e) ∧
    ask_question llm retr q = error_fallback := by
  obtain ⟨e, he⟩ :=
    runSteps_always_tool llm retr halways recursion_limit Node.llm
      { messages := initial_messages q }
  have hi : invoke llm retr { messages := initial_messages q } = Except.error e := he
  exact ⟨⟨e, hi⟩, by unfold ask_question; rw [hi]⟩

/-- Witness for C3: the fixed always-requesting chat model makes the loop
abort and `ask_question` return the fallback. -/
theorem loop_halts_on_tool_looping_llm_witness :
    (∃ e, invoke llmAlwaysTool emptyRetriever { messages := initial_messages "What is EF1?" }
        = Except.error e) ∧
    ask_question llmAlwaysTool emptyRetriever "What is EF1?" = error_fallback :=
  loop_halts_on_tool_looping_llm llmAlwaysTool emptyRetriever "What is EF1?"
    (fun _ => ⟨"searching", { name := "retriever_tool", args := [], id := "call_1" }, [], rfl⟩)

/-- Claim C4 (evidence of the code bug): at the failing input — an
assistant message whose requests include the registered name
`"retriever_tool"` — the Acting step raises the unbound-`self`
tool-invocation error instead of producing a result text for the request
(processing is in request order, so the error occurs at the first
registered-name request, here `call_1` of `stC4`).  The unknown-name half
of the claim does hold: a message carrying only unknown tool names yields
the fixed corrective message without raising. -/
theorem take_action_raises_on_registered_tool :
    take_action docRetrieverA stC4 = Except.error PyErr.toolInvocationError ∧
    take_action docRetrieverA stUnknownOnly
      = Except.ok [Message.tool "call_2" "web_search" incorrect_tool_msg] := by
  constructor
  · rfl
  · rfl

/-- Claim C5 (evidence of the code bug): an Acting step on a state whose
last assistant message carries two registered-name requests produces
**no** tool-result messages at all — the step raises at the first
invocation — so there is not one result per request; only on an
all-unknown-name message does the one-result-per-request, in-order,
id- and name-matching correspondence hold. -/
theorem take_action_no_results_on_registered_tools :
    take_action emptyRetriever stC5 = Except.error PyErr.toolInvocationError ∧
    take_action emptyRetriever stAllUnknown
      = Except.ok [Message.tool "u1" "search_web" incorrect_tool_msg,
                   Message.tool "u2" "calculator" incorrect_tool_msg] := by
  constructor
  · rfl
  · rfl

/-- The implementation's `enumerate`-based labelling agrees with the
recursive 1-based ordinal labelling, for every starting index. -/
theorem enumFrom_labels (ds : List Doc) : ∀ k : Nat,
    (List.enumFrom k ds).map (fun p => "Document " ++ toString (p.1 + 1) ++ ":\n" ++ p.2.page_content)
      = labeledDocs (k + 1) ds := by
  induction ds with
  | nil => intro k; rfl
  | cons d ds ih =>
    intro k
    simp only [List.enumFrom, List.map_cons, labeledDocs, ih]

/-- Claim C6: for every retriever and query, `retriever_tool` returns text
(it is a total function, never raising): the fixed sentinel when the
retrieved document list is empty, and otherwise the retrieved chunks'
texts joined in retrieval-rank order, each prefixed with its 1-based
ordinal label (`Document 1`, `Document 2`, ...). -/
theorem retriever_tool_contract (retr : Retriever) (query : String) :
    retriever_tool retr query =
      if retr query = [] then no_info_msg
      else String.intercalate "\n\n" (labeledDocs 1 (retr query)) := by
  unfold retriever_tool
  cases hd : retr query with
  | nil => rfl
  | cons d ds =>
    have h1 := enumFrom_labels (d :: ds) 0
    simp only [List.enum, List.isEmpty_cons, if_false, Bool.false_eq_true, reduceIte, h1]
    simp

/-- Every successful run of the step function ends in a state holding
exactly one message: the assistant message with an empty tool-call list
whose arrival made `should_continue` answer `false`. -/
theorem runSteps_ok_shape (llm : LLM) (retr : Retriever) :
    ∀ fuel node st0 st, runSteps llm retr fuel node st0 = Except.ok st →
      ∃ ans, st.messages = [Message.ai ans []] := by
  intro fuel
  induction fuel with
  | zero => intro node st0 st h; exact absurd h (by simp [runSteps])
  | succ n ih =>
    intro node st0 st h
    cases node with
    | llm =>
      unfold runSteps at h
      split at h
      · exact absurd h (by simp)
      · next update heq =>
        split at h
        · exact absurd h (by simp)
        · exact ih Node.retriever_agent (applyUpdate st0 update) st h
        · next heq2 =>
          injection h with hst
          unfold call_llm at heq
          split at heq
          · exact absurd heq (by simp)
          · next content tcs hl =>
            injection heq with hu
            rw [← hu] at heq2 hst
            have htcs : tcs = [] := by
              have h2 : should_continue (applyUpdate st0 [Message.ai content tcs])
                  = Except.ok (decide (tcs.length > 0)) := by
                simp [should_continue, applyUpdate, Message.getToolCallsAttr]
              rw [h2] at heq2
              injection heq2 with hb
              simpa using hb.symm
            exact ⟨content, by rw [← hst]; simp [applyUpdate, htcs]⟩
    | retriever_agent =>
      unfold runSteps at h
      split at h
      · exact absurd h (by simp)
      · next update heq => exact ih Node.llm (applyUpdate st0 update) st h

/-- Claim C8: whenever the graph run reaches the terminal state, the
answer `ask_question` returns is the text content of the last message of
the final conversation state, and that last message is the assistant
message without tool-call requests that caused the transition to the
terminal state. -/
theorem final_answer_from_last_message (llm : LLM) (retr : Retriever) (q : String)
    (st : AgentState)
    (h : invoke llm retr { messages := initial_messages q } = Except.ok st) :
    ∃ ans, st.messages = [Message.ai ans []] ∧
      st.messages.getLast? = some (Message.ai ans []) ∧
      ask_question llm retr q = ans := by
  obtain ⟨ans, hst⟩ := runSteps_ok_shape llm retr recursion_limit Node.llm _ st h
  refine ⟨ans, hst, by rw [hst]; rfl, ?_⟩
  unfold ask_question
  split
  · next e heq => rw [h] at heq; exact absurd heq (by simp)
  · next result heq =>
    rw [h] at heq
    injection heq with hres
    subst hres
    split
    · next hm => rw [hst] at hm; exact absurd hm (by simp)
    · next m hm =>
      rw [hst] at hm
      have : Message.ai ans [] = m := by simpa using hm
      rw [← this]
      rfl

/-- Witness for C8: with a chat model that answers directly, the run
succeeds and the answer is the content of the final assistant message. -/
theorem final_answer_from_last_message_witness :
    ∃ ans, (AgentState.mk [Message.ai "The main contribution is an EF1 algorithm." []]).messages
        = [Message.ai ans []] ∧
      (AgentState.mk [Message.ai "The main contribution is an EF1 algorithm." []]).messages.getLast?
        = some (Message.ai ans []) ∧
      ask_question llmDirectAnswer docRetrieverB "What is the main contribution?" = ans :=
  final_answer_from_last_message llmDirectAnswer docRetrieverB "What is the main contribution?"
    { messages := [Message.ai "The main contribution is an EF1 algorithm." []] } rfl

set_option maxRecDepth 100000 in
/-- Claim C9 (counterexample): on a page made of two 600-character
paragraphs separated by a blank line, the configured splitter produces the
two paragraphs as adjacent chunks, and the last 200 characters of the
first chunk are **not** the first 200 characters of the second chunk — the
blank-line split is carried over as a whole (and here dropped entirely, as
its 602 characters exceed the 200-character overlap budget), so no text is
shared at all: the byte-for-byte exact-overlap invariant fails. -/
theorem chunk_overlap_not_bytewise :
    split_text samplePage = [paraA, paraB] ∧
    paraA.drop (paraA.length - chunk_overlap) ≠ paraB.take chunk_overlap := by
  constructor
  · decide
  · decide

set_option maxRecDepth 100000 in
/-- Claim C9 (amended): the chunking step is configured with window size
1000 characters and overlap 200 characters (window positive, overlap
strictly below the window size), but the overlap is carried over in whole
separator-delimited splits of total length at most 200, not as an exact
byte-for-byte 200-character copy; on the two-paragraph sample page the two
produced chunks are non-empty, are each within the window size, and share
no text at all. -/
theorem chunking_configuration :
    chunk_size = 1000 ∧ chunk_overlap = 200 ∧
    0 < chunk_size ∧ chunk_overlap < chunk_size ∧
    split_text samplePage = [paraA, paraB] ∧
    (split_text samplePage).all
      (fun c => !c.isEmpty && decide (c.length ≤ chunk_size)) = true := by
  refine ⟨rfl, rfl, by decide, by decide, ?_, ?_⟩
  · decide
  · decide
